import Mathlib

/-!
# solauth: signature verification and the token lifecycle

A shallow embedding of `signature.go` and `jwt.go`.

The repository's own functions (`VerifySignature`, `IssueTokens`,
`VerifyToken`, `RefreshToken`) are translated line by line.  The third-party
packages they call (`base58`, `encoding/base64`, `crypto/ed25519`,
`golang-jwt/jwt/v5`, `uuid`, `time`) are not part of the repository: their
leaf operations are taken as parameters (`Crypto`, `JwtLib`), and what the
environment supplies (clock readings, fresh identifiers) is an explicit input.
-/

namespace Solauth

/-! ## Bytes and Go strings -/

/-- One octet. -/
abbrev Byte := Fin 256

/-- A Go byte slice. -/
abbrev Bytes := List Byte

/-- The conversion `[]byte(s)` of a Go string: its UTF-8 octets. -/
def stringBytes (s : String) : Bytes :=
  s.toUTF8.data.toList.map (fun b => b.val)

/-! ## signature.go -/

/-- The value of `ed25519.PublicKeySize`. -/
def ed25519PublicKeySize : Nat := 32

/-- The third-party operations used by `VerifySignature`, together with the
encoders and the signing side that a client uses to produce its inputs. -/
structure Crypto where
  /-- The function `base58.Decode`. -/
  base58Decode : String → Except String Bytes
  /-- The function `base58.Encode`. -/
  base58Encode : Bytes → String
  /-- The method `base64.StdEncoding.DecodeString`. -/
  base64Decode : String → Except String Bytes
  /-- The method `base64.StdEncoding.EncodeToString`. -/
  base64Encode : Bytes → String
  /-- The function `ed25519.Verify publicKey message sig`, on a public key of
  `ed25519PublicKeySize` octets (on any other length the Go function panics). -/
  ed25519Verify : Bytes → Bytes → Bytes → Bool
  /-- The function `ed25519.Sign privateKey message`. -/
  ed25519Sign : Bytes → Bytes → Bytes
  /-- The function `ed25519.NewKeyFromSeed`, returned together with the public
  half of the key: `(privateKey, publicKey)`. -/
  ed25519KeyFromSeed : Bytes → Bytes × Bytes

/-- The documented contracts of the third-party operations. -/
structure Crypto.Lawful (P : Crypto) : Prop where
  /-- Base58 decoding inverts base58 encoding. -/
  base58_decode_encode : ∀ b : Bytes, P.base58Decode (P.base58Encode b) = .ok b
  /-- Base64 decoding inverts base64 encoding. -/
  base64_decode_encode : ∀ b : Bytes, P.base64Decode (P.base64Encode b) = .ok b
  /-- A generated public key has `ed25519PublicKeySize` octets. -/
  public_size : ∀ seed : Bytes, seed.length = 32 →
    (P.ed25519KeyFromSeed seed).2.length = ed25519PublicKeySize
  /-- A signature made with a generated private key verifies under its public
  key. -/
  verify_sign : ∀ seed msg : Bytes, seed.length = 32 →
    P.ed25519Verify (P.ed25519KeyFromSeed seed).2 msg
      (P.ed25519Sign (P.ed25519KeyFromSeed seed).1 msg) = true

/-- A genuine ed25519 key pair: the private key generated from a 32-octet seed
and its public half. -/
def Crypto.GenuineKeyPair (P : Crypto) (sk pk : Bytes) : Prop :=
  ∃ seed : Bytes, seed.length = 32 ∧ P.ed25519KeyFromSeed seed = (sk, pk)

/-- The errors `VerifySignature` returns. -/
inductive SignatureError where
  /-- The error "failed to decode public key: %w". -/
  | decodePublicKey (inner : String)
  /-- The error "expected ed25519 public key size is: %v, got: %v". -/
  | publicKeySize (expected got : Nat)
  /-- The error "can't decode base64 signature". -/
  | decodeSignature (inner : String)
  /-- The error "signature is incorrect". -/
  | signatureIncorrect
  deriving DecidableEq, Repr

/-- The function `VerifySignature`; `none` is Go's `nil` error. -/
def VerifySignature (P : Crypto) (message signature publicKey : String) :
    Option SignatureError :=
  match P.base58Decode publicKey with
  | .error err => some (.decodePublicKey err)
  | .ok publicKeyBytes =>
    if publicKeyBytes.length ≠ ed25519PublicKeySize then
      some (.publicKeySize ed25519PublicKeySize publicKeyBytes.length)
    else
      match P.base64Decode signature with
      | .error err => some (.decodeSignature err)
      | .ok sig =>
        let validSignature := P.ed25519Verify publicKeyBytes (stringBytes message) sig
        if !validSignature then
          some .signatureIncorrect
        else
          none

/-! ## The JWT library (third party) -/

/-- The hash functions of the library's signing methods. -/
inductive HashAlg where
  | SHA256
  | SHA384
  | SHA512
  deriving DecidableEq, Repr

/-- The signing methods the JWT library registers, by implementing Go type:
`HMAC h` is a `*jwt.SigningMethodHMAC` (HS256, HS384, HS512), and so on. -/
inductive SigningMethod where
  | HMAC (h : HashAlg)
  | RSA (h : HashAlg)
  | RSAPSS (h : HashAlg)
  | ECDSA (h : HashAlg)
  | Ed25519
  | None
  deriving DecidableEq, Repr

/-- The variable `jwt.SigningMethodHS256`. -/
def SigningMethodHS256 : SigningMethod := .HMAC .SHA256

/-- The digits in a signing method's name. -/
def HashAlg.bits : HashAlg → String
  | .SHA256 => "256"
  | .SHA384 => "384"
  | .SHA512 => "512"

/-- The method `Alg()`: the name a signing method declares in the token header. -/
def SigningMethod.Alg : SigningMethod → String
  | .HMAC h => "HS" ++ h.bits
  | .RSA h => "RS" ++ h.bits
  | .RSAPSS h => "PS" ++ h.bits
  | .ECDSA h => "ES" ++ h.bits
  | .Ed25519 => "EdDSA"
  | .None => "none"

/-- Modelled from the spec: the registered claims of a token, the library type
`jwt.RegisteredClaims` whose declaration is not in the repository. The fields
are those of the spec's data model, which are the ones `IssueTokens` sets:
token identifier, audience, issued-at and expiry (Unix seconds, absent when the
Go pointer is nil). -/
structure RegisteredClaims where
  ID : String
  Audience : List String
  IssuedAt : Option Int
  ExpiresAt : Option Int
  deriving DecidableEq, Repr

/-- The type `Claims` of jwt.go: the wallet and the embedded registered claims. -/
structure Claims extends RegisteredClaims where
  Wallet : String
  deriving DecidableEq, Repr

/-- The error the key function of `VerifyToken` returns. -/
inductive KeyfuncError where
  /-- The error "unexpected signing method: %v", with the header's `alg`. -/
  | unexpectedSigningMethod (alg : String)
  deriving DecidableEq, Repr

/-- The errors of the JWT library. -/
inductive JwtError where
  /-- The token string does not have the structure of a token. -/
  | malformed
  /-- The declared signing method is missing or not registered. -/
  | unverifiable
  /-- The key function returned an error. -/
  | keyfunc (inner : KeyfuncError)
  /-- The signature does not verify under the key. -/
  | signatureInvalid
  /-- The expiry of the token has passed. -/
  | tokenExpired
  /-- The signing method could not sign. -/
  | signing
  deriving DecidableEq, Repr

/-- The fields of the library type `jwt.Token` that jwt.go reads. -/
structure Token where
  Method : SigningMethod
  /-- The header entry `Header["alg"]`. -/
  alg : String
  Claims : Solauth.Claims
  Valid : Bool
  deriving DecidableEq, Repr

/-- The leaf operations of the JWT library: wire encoding and the signing
methods. -/
structure JwtLib where
  /-- The method `Token.SigningString` of a token made by `jwt.NewWithClaims`:
  the encoded header and claims. -/
  SigningString : SigningMethod → Claims → String
  /-- The method `SigningMethod.Sign signingString key`. -/
  Sign : SigningMethod → String → Bytes → Except JwtError Bytes
  /-- The method `SigningMethod.Verify signingString sig key`; `true` is a nil
  error. -/
  Verify : SigningMethod → String → Bytes → Bytes → Bool
  /-- The method `Token.EncodeSegment`. -/
  EncodeSegment : Bytes → String
  /-- The method `Parser.DecodeSegment`. -/
  DecodeSegment : String → Option Bytes
  /-- The method `Parser.ParseUnverified`: the token read from the string with
  its signing method looked up (not yet valid), the signing string (the first
  two segments) and the signature segment. -/
  ParseUnverified : String → Except JwtError (Token × String × String)

/-- The method `Token.SignedString key` of a token made by
`jwt.NewWithClaims method claims`. -/
def JwtLib.SignedString (L : JwtLib) (method : SigningMethod) (claims : Claims)
    (key : Bytes) : Except JwtError String :=
  let sstr := L.SigningString method claims
  match L.Sign method sstr key with
  | .error err => .error err
  | .ok sig => .ok (sstr ++ "." ++ L.EncodeSegment sig)

/-- Modelled from the spec: the claims validation of the JWT library, which is
not in the repository: "Checks expiry against current time; past expiry →
TokenExpired". A token without an expiry passes. The expiry is in whole
seconds, so comparing it with the clock is comparing it with the clock's whole
second `now`. -/
def validateClaims (now : Int) (claims : Claims) : Option JwtError :=
  match claims.ExpiresAt with
  | none => none
  | some exp => if now < exp then none else some .tokenExpired

/-- Modelled from the spec: the function `jwt.ParseWithClaims` of the JWT
library, which is not in the repository, in the order §4.2 gives for
VerifyToken: parse the structure and the signing-method declaration, ask the
key function for the key, check the signature against it, then check the
expiry against the current time `now`; on success the token is marked valid. -/
def JwtLib.ParseWithClaims (L : JwtLib) (now : Int) (tokenString : String)
    (keyFunc : Token → Except KeyfuncError Bytes) : Except JwtError Token :=
  match L.ParseUnverified tokenString with
  | .error err => .error err
  | .ok (token, signingString, sigSegment) =>
    match keyFunc token with
    | .error err => .error (.keyfunc err)
    | .ok key =>
      match L.DecodeSegment sigSegment with
      | none => .error .malformed
      | some sig =>
        if !L.Verify token.Method signingString sig key then
          .error .signatureInvalid
        else
          match validateClaims now token.Claims with
          | some err => .error err
          | none => .ok { token with Valid := true }

/-- The contracts of the library's leaf operations that the token round trip
rests on. -/
structure JwtLib.Lawful (L : JwtLib) : Prop where
  /-- A signing string followed by a dot and an encoded signature parses back
  to the method, its name and the claims it was made of. -/
  parse_signed : ∀ (m : SigningMethod) (c : Claims) (sig : Bytes),
    L.ParseUnverified (L.SigningString m c ++ "." ++ L.EncodeSegment sig) =
      .ok ({ Method := m, alg := m.Alg, Claims := c, Valid := false },
           L.SigningString m c, L.EncodeSegment sig)
  /-- Segment decoding inverts segment encoding. -/
  decode_encode : ∀ sig : Bytes, L.DecodeSegment (L.EncodeSegment sig) = some sig
  /-- An HMAC method verifies what it signed under the same key. -/
  verify_sign : ∀ (h : HashAlg) (s : String) (key sig : Bytes),
    L.Sign (.HMAC h) s key = .ok sig → L.Verify (.HMAC h) s sig key = true
  /-- Whether an HMAC method can sign under a key does not depend on the string
  it signs. -/
  sign_any : ∀ (h : HashAlg) (s s' : String) (key sig : Bytes),
    L.Sign (.HMAC h) s key = .ok sig → ∃ sig', L.Sign (.HMAC h) s' key = .ok sig'

/-! ## jwt.go -/

/-- The type `JWT`. -/
structure JWT where
  signingKey : Bytes
  deriving DecidableEq, Repr

/-- The function `NewJWT`. -/
def NewJWT (signingKey : Bytes) : JWT :=
  { signingKey := signingKey }

/-- The type `TokenResponse`. -/
structure TokenResponse where
  Access : String
  Refresh : String
  ExpiresIn : Int
  deriving DecidableEq, Repr

/-- The errors the methods of `JWT` return. -/
inductive TokenError where
  /-- The error "failed to sign token: %w". -/
  | signToken (inner : JwtError)
  /-- The error "failed to sign refresh token: %w". -/
  | signRefreshToken (inner : JwtError)
  /-- The error "failed to parse token: %w". -/
  | parseToken (inner : JwtError)
  /-- The error "invalid token". -/
  | invalidToken
  /-- The error "token is empty". -/
  | tokenEmpty
  /-- The error "failed to verify token: %w". -/
  | verifyToken (inner : TokenError)
  /-- The error "the token is not a refresh token". -/
  | notRefreshToken
  deriving DecidableEq, Repr

/-- What one call of `IssueTokens` takes from its environment, in the order of
the calls: two fresh identifiers (`uuid.New().String()`) and four readings of
the clock (`time.Now()`, in whole Unix seconds). -/
structure IssueEnv where
  accessID : String
  nowAccessExp : Int
  nowAccessIat : Int
  refreshID : String
  nowRefreshExp : Int
  nowRefreshIat : Int
  deriving DecidableEq, Repr

/-- The claims of the access token built in `IssueTokens`: the expiry is
`time.Now().Add(time.Hour * 1).Unix()`, an hour after the reading's second. -/
def accessClaims (env : IssueEnv) (walletAddr : String) : Claims :=
  let accessID := env.accessID
  let accessExpAt := env.nowAccessExp + 3600 * 1
  { Wallet := walletAddr
    ID := accessID
    Audience := ["access"]
    IssuedAt := some env.nowAccessIat
    ExpiresAt := some accessExpAt }

/-- The claims of the refresh token built in `IssueTokens`: the expiry is
`time.Now().Add(time.Hour * 24 * 7).Unix()`. -/
def refreshClaims (env : IssueEnv) (walletAddr : String) : Claims :=
  let refreshID := env.refreshID
  let refreshExpAt := env.nowRefreshExp + 3600 * 24 * 7
  { Wallet := walletAddr
    ID := refreshID
    Audience := ["refresh"]
    IssuedAt := some env.nowRefreshIat
    ExpiresAt := some refreshExpAt }

/-- The method `JWT.IssueTokens`. -/
def JWT.IssueTokens (L : JwtLib) (j : JWT) (env : IssueEnv) (walletAddr : String) :
    Except TokenError TokenResponse :=
  match L.SignedString SigningMethodHS256 (accessClaims env walletAddr) j.signingKey with
  | .error err => .error (.signToken err)
  | .ok accessTokenString =>
    match L.SignedString SigningMethodHS256 (refreshClaims env walletAddr) j.signingKey with
    | .error err => .error (.signRefreshToken err)
    | .ok refreshTokenString =>
      .ok { Access := accessTokenString
            Refresh := refreshTokenString
            ExpiresIn := 3600 }

/-- The key function `VerifyToken` passes to the parser. -/
def JWT.keyFunc (j : JWT) (token : Token) : Except KeyfuncError Bytes :=
  match token.Method with
  | .HMAC _ => .ok j.signingKey
  | _ => .error (.unexpectedSigningMethod token.alg)

/-- The method `JWT.VerifyToken`, at the clock reading `now`. The type
assertion `token.Claims.(*Claims)` holds on every path, since the parser fills
the `&Claims` it is given, so the test left is `token.Valid`. -/
def JWT.VerifyToken (L : JwtLib) (j : JWT) (now : Int) (tokenString : String) :
    Except TokenError Claims :=
  match L.ParseWithClaims now tokenString j.keyFunc with
  | .error err => .error (.parseToken err)
  | .ok token =>
    if token.Valid then
      .ok token.Claims
    else
      .error .invalidToken

/-- How a Go call ends: it returns its results, or it panics. -/
inductive Outcome (α : Type) where
  | returned (a : α)
  | panicked (msg : String)
  deriving DecidableEq, Repr

/-- The method `JWT.RefreshToken`: `now` is the clock reading of the
verification, `env` what the issuance takes from the environment. -/
def JWT.RefreshToken (L : JwtLib) (j : JWT) (now : Int) (env : IssueEnv)
    (tokenString : String) : Outcome (Except TokenError TokenResponse) :=
  if tokenString = "" then
    .returned (.error .tokenEmpty)
  else
    match j.VerifyToken L now tokenString with
    | .error err => .returned (.error (.verifyToken err))
    | .ok claims =>
      match claims.Audience[0]? with
      | none => .panicked "index out of range [0] with length 0"
      | some aud =>
        if aud ≠ "refresh" then
          .returned (.error .notRefreshToken)
        else
          .returned (j.IssueTokens L env claims.Wallet)

/-! ## net/http (standard library) -/

/-- The constant `http.StatusOK`. -/
def StatusOK : Nat := 200

/-- The constant `http.StatusBadRequest`. -/
def StatusBadRequest : Nat := 400

/-- The constant `http.StatusUnauthorized`. -/
def StatusUnauthorized : Nat := 401

/-- The constant `http.StatusInternalServerError`. -/
def StatusInternalServerError : Nat := 500

/-- The type `http.Header`: the values of each canonical header name. -/
abbrev Header := List (String × List String)

/-- The method `Header.Get` on a canonical name: the first value of the name,
the empty string when there is none. -/
def Header.Get (h : Header) (key : String) : String :=
  match h.lookup key with
  | some (v :: _) => v
  | _ => ""

/-- The method `Header.Del`. -/
def Header.Del (h : Header) (key : String) : Header :=
  h.filter (fun kv => kv.1 ≠ key)

/-- The method `Header.Set`. -/
def Header.Set (h : Header) (key value : String) : Header :=
  (key, [value]) :: h.Del key

/-- The method `Header.Add`. -/
def Header.Add (h : Header) (key value : String) : Header :=
  match h.lookup key with
  | some vs => (key, vs ++ [value]) :: h.Del key
  | none => (key, [value]) :: h

/-- The keys of context values: the variable `TokenClaimsContextKey` of
middleware.go, and any other key. -/
inductive ContextKey where
  | TokenClaimsContextKey
  | foreign (id : Nat)
  deriving DecidableEq, Repr

/-- The values a context holds, by dynamic type: a `*Claims` (nil or not), or a
value of another type. -/
inductive ContextValue where
  | claims (p : Option Claims)
  | foreign (id : Nat)
  deriving DecidableEq, Repr

/-- The type `context.Context`, as the chain of its values, newest first. -/
abbrev Context := List (ContextKey × ContextValue)

/-- The function `context.WithValue`. -/
def Context.WithValue (ctx : Context) (key : ContextKey) (val : ContextValue) : Context :=
  (key, val) :: ctx

/-- The method `Context.Value`: the newest value of the key, none for nil. -/
def Context.Value (ctx : Context) (key : ContextKey) : Option ContextValue :=
  ctx.lookup key

/-- The parts of the type `http.Request` that the package reads. -/
structure Request where
  Header : Solauth.Header
  Body : String
  ctx : Solauth.Context
  deriving DecidableEq, Repr

/-- The method `Request.Context`. -/
def Request.Context (r : Request) : Solauth.Context :=
  r.ctx

/-- The method `Request.WithContext`. -/
def Request.WithContext (r : Request) (ctx : Solauth.Context) : Request :=
  { r with ctx := ctx }

/-- A response writer, as the test recorder `httptest.ResponseRecorder`: the
status code, whether it has been written, the headers and the body. -/
structure ResponseRecorder where
  Code : Nat
  wroteHeader : Bool
  HeaderMap : Solauth.Header
  Body : String
  deriving DecidableEq, Repr

/-- The function `httptest.NewRecorder`. -/
def NewRecorder : ResponseRecorder :=
  { Code := 200, wroteHeader := false, HeaderMap := [], Body := "" }

/-- The method `WriteHeader`: only the first status code counts. -/
def ResponseRecorder.WriteHeader (w : ResponseRecorder) (code : Nat) : ResponseRecorder :=
  if w.wroteHeader then
    w
  else
    { w with Code := code, wroteHeader := true }

/-- The method `Write`: writes the status 200 first if none was written. -/
def ResponseRecorder.Write (w : ResponseRecorder) (data : String) : ResponseRecorder :=
  let w := if !w.wroteHeader then w.WriteHeader StatusOK else w
  { w with Body := w.Body ++ data }

/-- The function `http.Error`. -/
def httpError (w : ResponseRecorder) (msg : String) (code : Nat) : ResponseRecorder :=
  let h := w.HeaderMap.Del "Content-Length"
  let h := h.Set "Content-Type" "text/plain; charset=utf-8"
  let h := h.Set "X-Content-Type-Options" "nosniff"
  let w := { w with HeaderMap := h }
  let w := w.WriteHeader code
  w.Write (msg ++ "\n")

/-- A handler (`http.Handler`): what serving a request does to the response
writer and to the rest of the program's state `σ`. -/
abbrev Handler (σ : Type) := ResponseRecorder → Request → σ → ResponseRecorder × σ

/-- A handler that only logs the requests it is served. -/
def recordNext : Handler (List Request) :=
  fun w r served => (w, served ++ [r])

/-! ## middleware.go -/

/-- The interface `verifier`; its method returns a `*Claims` (nil or not) or an
error of some type `ε`. -/
structure verifier (ε : Type) where
  VerifyToken : String → Except ε (Option Claims)

/-- The function `GetClaimsFromRequest`; `none` is the nil pointer. -/
def GetClaimsFromRequest (r : Request) : Option Claims :=
  match r.Context.Value .TokenClaimsContextKey with
  | some (.claims claims) => claims
  | _ => none

/-- The function `GetClaimsFromContext`. -/
def GetClaimsFromContext (ctx : Context) : Option Claims :=
  match ctx.Value .TokenClaimsContextKey with
  | some (.claims claims) => claims
  | _ => none

/-- The function `Middleware`. -/
def Middleware {ε σ : Type} (v : verifier ε) (next : Handler σ) : Handler σ :=
  fun w r s =>
    let token := r.Header.Get "Authorization"
    if token = "" then
      (httpError w "Unauthorized" StatusUnauthorized, s)
    else
      match v.VerifyToken token with
      | .error _ => (httpError w "Unauthorized" StatusUnauthorized, s)
      | .ok claims =>
        let ctx := r.Context.WithValue .TokenClaimsContextKey (.claims claims)
        next w (r.WithContext ctx) s

/-- The manager `*JWT` as a `verifier`, at the clock reading `now`: on success
its claims pointer is not nil. -/
def JWT.verifier (L : JwtLib) (j : JWT) (now : Int) : verifier TokenError where
  VerifyToken := fun tokenString =>
    match j.VerifyToken L now tokenString with
    | .ok claims => .ok (some claims)
    | .error err => .error err

/-! ## http_handlers.go -/

/-- The values the handlers pass to `defaultResponse`: the map with the keys
"code" and "error", the map with the key "message", and a token pair. -/
inductive ResponseData where
  | errorMap (code : Nat) (error : String)
  | messageMap (message : String)
  | tokens (t : TokenResponse)
  deriving DecidableEq, Repr

/-- The type `VerifySignedMessagePayload`. -/
structure VerifySignedMessagePayload where
  Message : String
  Signature : String
  PublicKey : String
  deriving DecidableEq, Repr

/-- The type `RefreshTokenPayload`. -/
structure RefreshTokenPayload where
  RefreshToken : String
  deriving DecidableEq, Repr

/-- The operations of `encoding/json` the handlers use: decoding a request body
into a payload (the error is its text), and the text `Encode` writes. -/
structure JsonLib where
  decodeVerifySignedMessagePayload : String → Except String VerifySignedMessagePayload
  decodeRefreshTokenPayload : String → Except String RefreshTokenPayload
  Encode : ResponseData → String

/-- The function `defaultResponse`. -/
def defaultResponse (J : JsonLib) (w : ResponseRecorder) (status : Nat)
    (data : ResponseData) : ResponseRecorder :=
  let w := { w with HeaderMap := w.HeaderMap.Add "Content-Type" "application/json; charset=UTF-8" }
  let w := w.WriteHeader status
  w.Write (J.Encode data)

/-- The method `VerifySignedMessagePayload.Validate`; `none` is the nil error,
otherwise the text of the error. -/
def VerifySignedMessagePayload.Validate (p : VerifySignedMessagePayload) : Option String :=
  if p.Message = "" then
    some "message is required"
  else if p.Signature = "" then
    some "signature is required"
  else if p.PublicKey = "" then
    some "public_key is required"
  else
    none

/-- The text `Error()` of the errors of `VerifySignature`. -/
def SignatureError.Error : SignatureError → String
  | .decodePublicKey inner => "failed to decode public key: " ++ inner
  | .publicKeySize expected got =>
    "expected ed25519 public key size is: " ++ toString expected ++ ", got: " ++ toString got
  | .decodeSignature inner => "can\x27t decode base64 signature: " ++ inner
  | .signatureIncorrect => "signature is incorrect"

/-- The text `Error()` of the errors of the methods of `JWT`, given the text of
the library's errors. -/
def TokenError.Error (jwtText : JwtError → String) : TokenError → String
  | .signToken inner => "failed to sign token: " ++ jwtText inner
  | .signRefreshToken inner => "failed to sign refresh token: " ++ jwtText inner
  | .parseToken inner => "failed to parse token: " ++ jwtText inner
  | .invalidToken => "invalid token"
  | .tokenEmpty => "token is empty"
  | .verifyToken inner => "failed to verify token: " ++ TokenError.Error jwtText inner
  | .notRefreshToken => "the token is not a refresh token"

/-- The interface parameter of the handler `VerifySignedMessage`, with the text
of its errors. -/
structure issuer (ε : Type) where
  IssueTokens : String → Except ε TokenResponse
  Error : ε → String

/-- The interface parameter of the handler `RefreshToken`, with the text of its
errors. -/
structure refresher (ε : Type) where
  RefreshToken : String → Outcome (Except ε TokenResponse)
  Error : ε → String

/-- The handler `VerifySignedMessage`. -/
def VerifySignedMessage {ε : Type} (J : JsonLib) (P : Crypto) (jwt : issuer ε)
    (w : ResponseRecorder) (r : Request) : ResponseRecorder :=
  match J.decodeVerifySignedMessagePayload r.Body with
  | .error err =>
    defaultResponse J w StatusBadRequest (.errorMap StatusBadRequest err)
  | .ok payload =>
    match payload.Validate with
    | some err =>
      defaultResponse J w StatusBadRequest (.errorMap StatusBadRequest err)
    | none =>
      match VerifySignature P payload.Message payload.Signature payload.PublicKey with
      | some err =>
        defaultResponse J w StatusBadRequest (.errorMap StatusBadRequest err.Error)
      | none =>
        match jwt.IssueTokens payload.PublicKey with
        | .error err =>
          defaultResponse J w StatusInternalServerError
            (.errorMap StatusInternalServerError (jwt.Error err))
        | .ok tokens => defaultResponse J w StatusOK (.tokens tokens)

/-- The handler `RefreshToken`; it panics when the method it calls does. -/
def RefreshToken {ε : Type} (J : JsonLib) (jwt : refresher ε)
    (w : ResponseRecorder) (r : Request) : Outcome ResponseRecorder :=
  match J.decodeRefreshTokenPayload r.Body with
  | .error err =>
    .returned (defaultResponse J w StatusBadRequest (.errorMap StatusBadRequest err))
  | .ok payload =>
    if payload.RefreshToken = "" then
      .returned (defaultResponse J w StatusBadRequest
        (.errorMap StatusBadRequest "refresh_token is required"))
    else
      match jwt.RefreshToken payload.RefreshToken with
      | .panicked msg => .panicked msg
      | .returned (.error err) =>
        .returned (defaultResponse J w StatusInternalServerError
          (.errorMap StatusInternalServerError (jwt.Error err)))
      | .returned (.ok tokens) => .returned (defaultResponse J w StatusOK (.tokens tokens))

/-- The manager `*JWT` as the parameter of the handler `RefreshToken`: `now` is
the clock reading of the verification, `env` what the issuance takes from the
environment, `jwtText` the text of the library's errors. -/
def JWT.refresher (L : JwtLib) (j : JWT) (now : Int) (env : IssueEnv)
    (jwtText : JwtError → String) : refresher TokenError where
  RefreshToken := fun tokenString => j.RefreshToken L now env tokenString
  Error := TokenError.Error jwtText

/-! ## Reference instances

Small executable instances of the third-party operations that satisfy their
contracts; the general theorems are applied to them on concrete inputs. -/

/-- Octets written as characters, one per octet. -/
def demoEncode (b : Bytes) : String :=
  String.mk (b.map (fun x => Char.ofNat x.val))

/-- The inverse of `demoEncode` on character lists; no result when a character
is not an octet. -/
def demoDecodeChars : List Char → Option Bytes
  | [] => some []
  | c :: cs =>
    if h : c.toNat < 256 then
      (demoDecodeChars cs).map (fun bs => (⟨c.toNat, h⟩ : Byte) :: bs)
    else
      none

/-- The inverse of `demoEncode`. -/
def demoDecode (s : String) : Except String Bytes :=
  match demoDecodeChars s.data with
  | some b => .ok b
  | none => .error "invalid character"

/-- A reference instance of `Crypto`: both text encodings are `demoEncode`, the
public key is the seed, and a signature is the public key followed by the
message. -/
def demoCrypto : Crypto where
  base58Decode := demoDecode
  base58Encode := demoEncode
  base64Decode := demoDecode
  base64Encode := demoEncode
  ed25519Verify := fun publicKey message sig => decide (sig = publicKey ++ message)
  ed25519Sign := fun privateKey message => privateKey.take 32 ++ message
  ed25519KeyFromSeed := fun seed => (seed ++ seed, seed)

/-- A 32-octet seed. -/
def demoSeed : Bytes := List.replicate 32 7

/-- A natural number in unary: `n` ones and a zero. -/
def encNat (n : Nat) : List Char :=
  List.replicate n '1' ++ ['0']

/-- Reads a unary number off the front of a character list. -/
def readNat : List Char → Option (Nat × List Char)
  | [] => none
  | c :: cs =>
    if c = '1' then
      (readNat cs).map (fun r => (r.1 + 1, r.2))
    else if c = '0' then
      some (0, cs)
    else
      none

/-- A string, preceded by its length. -/
def encStr (s : String) : List Char :=
  encNat s.length ++ s.data

/-- Reads a length-prefixed string. -/
def readStr (cs : List Char) : Option (String × List Char) :=
  match readNat cs with
  | none => none
  | some (n, rest) =>
    if n ≤ rest.length then
      some (String.mk (rest.take n), rest.drop n)
    else
      none

/-- Strings one after the other. -/
def encStrList : List String → List Char
  | [] => []
  | s :: ss => encStr s ++ encStrList ss

/-- Reads `n` length-prefixed strings. -/
def readStrList : Nat → List Char → Option (List String × List Char)
  | 0, cs => some ([], cs)
  | n + 1, cs =>
    match readStr cs with
    | none => none
    | some (s, rest) =>
      match readStrList n rest with
      | none => none
      | some (ss, rest') => some (s :: ss, rest')

/-- An optional timestamp: `N` when absent, else the sign and the magnitude. -/
def encOptInt : Option Int → List Char
  | none => ['N']
  | some (Int.ofNat n) => 'P' :: encNat n
  | some (Int.negSucc n) => 'M' :: encNat n

/-- Reads an optional timestamp. -/
def readOptInt : List Char → Option (Option Int × List Char)
  | [] => none
  | c :: cs =>
    if c = 'N' then
      some (none, cs)
    else if c = 'P' then
      (readNat cs).map (fun r => (some (Int.ofNat r.1), r.2))
    else if c = 'M' then
      (readNat cs).map (fun r => (some (Int.negSucc r.1), r.2))
    else
      none

/-- The signing methods the JWT library registers. -/
def registeredMethods : List SigningMethod :=
  [.HMAC .SHA256, .HMAC .SHA384, .HMAC .SHA512,
   .RSA .SHA256, .RSA .SHA384, .RSA .SHA512,
   .RSAPSS .SHA256, .RSAPSS .SHA384, .RSAPSS .SHA512,
   .ECDSA .SHA256, .ECDSA .SHA384, .ECDSA .SHA512,
   .Ed25519, .None]

/-- The function `jwt.GetSigningMethod`: the registered method of a name. -/
def GetSigningMethod (alg : String) : Option SigningMethod :=
  registeredMethods.find? (fun m => decide (m.Alg = alg))

/-- The header and claims of the reference wire format: the method name, the
wallet, the identifier, the audience, issued-at and expiry. -/
def demoSigningChars (m : SigningMethod) (c : Claims) : List Char :=
  encStr m.Alg ++ (encStr c.Wallet ++ (encStr c.ID ++ (encNat c.Audience.length ++
    (encStrList c.Audience ++ (encOptInt c.IssuedAt ++ encOptInt c.ExpiresAt)))))

/-- Reads header and claims off the front of a token and looks the declared
method up. -/
def demoParseChars (cs : List Char) : Except JwtError (Token × List Char) :=
  match readStr cs with
  | none => .error .malformed
  | some (alg, r1) =>
    match readStr r1 with
    | none => .error .malformed
    | some (wallet, r2) =>
      match readStr r2 with
      | none => .error .malformed
      | some (id, r3) =>
        match readNat r3 with
        | none => .error .malformed
        | some (n, r4) =>
          match readStrList n r4 with
          | none => .error .malformed
          | some (aud, r5) =>
            match readOptInt r5 with
            | none => .error .malformed
            | some (iat, r6) =>
              match readOptInt r6 with
              | none => .error .malformed
              | some (exp, r7) =>
                match GetSigningMethod alg with
                | none => .error .unverifiable
                | some m =>
                  .ok ({ Method := m, alg := alg, Valid := false,
                         Claims := { Wallet := wallet, ID := id, Audience := aud,
                                     IssuedAt := iat, ExpiresAt := exp } }, r7)

/-- The reference `ParseUnverified`: header and claims, a dot, the signature
segment. -/
def demoParseUnverified (s : String) : Except JwtError (Token × String × String) :=
  match demoParseChars s.data with
  | .error err => .error err
  | .ok (tok, rest) =>
    match rest with
    | [] => .error .malformed
    | c :: seg =>
      if c = '.' then
        .ok (tok, String.mk (s.data.take (s.data.length - (seg.length + 1))), String.mk seg)
      else
        .error .malformed

/-- A stand-in for the HMAC of a signing string (a checksum, not a secure
code): a tag for the hash, then the key and the characters of the string folded
into one octet. -/
def demoMac (h : HashAlg) (key : Bytes) (s : String) : Bytes :=
  let tag : Byte :=
    match h with
    | .SHA256 => 1
    | .SHA384 => 2
    | .SHA512 => 3
  let text : List Nat := key.map (fun b => b.val) ++ s.data.map Char.toNat
  [tag, Fin.ofNat (text.foldl (fun acc b => acc * 31 + b) 7)]

/-- A reference instance of `JwtLib`. -/
def demoJwt : JwtLib where
  SigningString := fun m c => String.mk (demoSigningChars m c)
  Sign := fun m s key =>
    match m with
    | .HMAC h => .ok (demoMac h key s)
    | _ => .error .signing
  Verify := fun m s sig key =>
    match m with
    | .HMAC h => decide (sig = demoMac h key s)
    | _ => false
  EncodeSegment := demoEncode
  DecodeSegment := fun s => demoDecodeChars s.data
  ParseUnverified := demoParseUnverified

/-- The signing key of the repository's tests, "secret". -/
def demoKey : Bytes := [115, 101, 99, 114, 101, 116]

/-- An environment of `IssueTokens`: every clock reading is 1000. -/
def demoEnv : IssueEnv where
  accessID := "id-a"
  nowAccessExp := 1000
  nowAccessIat := 1000
  refreshID := "id-r"
  nowRefreshExp := 1000
  nowRefreshIat := 1000

/-- A later environment of `IssueTokens`: every clock reading is 2000. -/
def demoEnvLater : IssueEnv where
  accessID := "id-c"
  nowAccessExp := 2000
  nowAccessIat := 2000
  refreshID := "id-d"
  nowRefreshExp := 2000
  nowRefreshIat := 2000

/-- The token string the reference instance makes of a method, claims and
signature octets. -/
def demoToken (m : SigningMethod) (c : Claims) (sig : Bytes) : String :=
  demoJwt.SigningString m c ++ "." ++ demoEncode sig

/-- The token string of claims signed with `demoKey` under an HMAC method. -/
def demoSigned (h : HashAlg) (c : Claims) : String :=
  demoToken (.HMAC h) c (demoMac h demoKey (demoJwt.SigningString (.HMAC h) c))

/-- The pair `IssueTokens` returns for the wallet "w" in `demoEnv` under
`demoKey`. -/
def demoTokens : TokenResponse where
  Access := demoSigned .SHA256 (accessClaims demoEnv "w")
  Refresh := demoSigned .SHA256 (refreshClaims demoEnv "w")
  ExpiresIn := 3600

/-- Claims of wallet "w" for an access token that expires at time 5. -/
def demoClaims : Claims where
  Wallet := "w"
  ID := "id"
  Audience := ["access"]
  IssuedAt := some 0
  ExpiresAt := some 5

/-- Claims of wallet "w" without an audience and without an expiry. -/
def demoBareClaims : Claims where
  Wallet := "w"
  ID := ""
  Audience := []
  IssuedAt := none
  ExpiresAt := none

/-- The lines of a text, split at line feeds. -/
def splitLines : List Char → List (List Char)
  | [] => [[]]
  | c :: cs =>
    if c = '\n' then
      [] :: splitLines cs
    else
      match splitLines cs with
      | l :: ls => (c :: l) :: ls
      | [] => [[c]]

/-- A reference instance of `JsonLib`: a body holds the fields of its payload
one per line, and a response is written as plain lines. -/
def demoJson : JsonLib where
  decodeVerifySignedMessagePayload := fun body =>
    match splitLines body.data with
    | [m, s, p] =>
      .ok { Message := String.mk m, Signature := String.mk s, PublicKey := String.mk p }
    | _ => .error "unexpected end of input"
  decodeRefreshTokenPayload := fun body =>
    match splitLines body.data with
    | [t] => .ok { RefreshToken := String.mk t }
    | _ => .error "unexpected end of input"
  Encode := fun data =>
    match data with
    | .errorMap code err => "error " ++ toString code ++ ": " ++ err ++ "\n"
    | .messageMap message => "message: " ++ message ++ "\n"
    | .tokens t => t.Access ++ "\n" ++ t.Refresh ++ "\n" ++ toString t.ExpiresIn ++ "\n"

/-- A text for each error of the JWT library. -/
def demoJwtErrorText : JwtError → String
  | .malformed => "token is malformed"
  | .unverifiable => "token is unverifiable"
  | .keyfunc (.unexpectedSigningMethod alg) =>
    "token is unverifiable: unexpected signing method: " ++ alg
  | .signatureInvalid => "token signature is invalid"
  | .tokenExpired => "token is expired"
  | .signing => "key is of invalid type"

/-- The token string of `demoClaims` (audience "access", expiry 5) signed with
`demoKey`. -/
def demoAccessToken : String :=
  "111110HS25610w110id101111110accessP0P111110.\x01\x7f"

/-- A request whose Authorization header is `demoAccessToken`. -/
def demoAuthRequest : Request where
  Header := [("Authorization", [demoAccessToken])]
  Body := ""
  ctx := []

/-- A request without an Authorization header. -/
def demoAnonRequest : Request where
  Header := [("Content-Type", ["application/json"])]
  Body := ""
  ctx := []

/-- A request to the handler `RefreshToken` whose refresh token is `token`. -/
def demoRefreshRequest (token : String) : Request where
  Header := [("Content-Type", ["application/json"])]
  Body := token
  ctx := []

/-- The manager of `demoKey` as the parameter of the handler `RefreshToken`,
at the clock reading `now`. -/
def demoRefresher (now : Int) : refresher TokenError :=
  (NewJWT demoKey).refresher demoJwt now demoEnvLater demoJwtErrorText

/-! ## Lemmas on the reference instances -/

theorem char_toNat_ofNat (n : Nat) (h : n < 256) : (Char.ofNat n).toNat = n := by
  have hv : n.isValidChar := Or.inl (by omega)
  simp [Char.ofNat, hv, Char.ofNatAux, Char.toNat, UInt32.toNat]

theorem demoDecodeChars_map (b : Bytes) :
    demoDecodeChars (b.map (fun x => Char.ofNat x.val)) = some b := by
  induction b with
  | nil => rfl
  | cons x xs ih =>
    have hx : (Char.ofNat x.val).toNat = x.val := char_toNat_ofNat x.val x.isLt
    have hlt : (Char.ofNat x.val).toNat < 256 := by rw [hx]; exact x.isLt
    simp only [List.map_cons, demoDecodeChars, hlt, dite_true, ih, Option.map_some']
    congr 2
    exact Fin.ext hx

theorem demoDecode_demoEncode (b : Bytes) : demoDecode (demoEncode b) = .ok b := by
  simp [demoDecode, demoEncode, demoDecodeChars_map]

theorem demoCrypto_lawful : demoCrypto.Lawful where
  base58_decode_encode := demoDecode_demoEncode
  base64_decode_encode := demoDecode_demoEncode
  public_size := fun seed h => h
  verify_sign := by
    intro seed msg h
    have ht : (seed ++ seed).take 32 = seed := List.take_left' h
    simp [demoCrypto, ht]

theorem readNat_encNat (n : Nat) (rest : List Char) :
    readNat (encNat n ++ rest) = some (n, rest) := by
  induction n with
  | zero => simp [encNat, readNat]
  | succ k ih =>
    have : encNat (k + 1) ++ rest = '1' :: (encNat k ++ rest) := by
      simp [encNat, List.replicate_succ]
    rw [this, readNat]
    simp [ih]

theorem readStr_encStr (s : String) (rest : List Char) :
    readStr (encStr s ++ rest) = some (s, rest) := by
  unfold readStr encStr
  rw [List.append_assoc, readNat_encNat]
  have h1 : (s.data ++ rest).take s.length = s.data := List.take_left' rfl
  have h2 : (s.data ++ rest).drop s.length = rest := List.drop_left' rfl
  have h3 : s.length ≤ (s.data ++ rest).length := by
    rw [List.length_append]
    exact Nat.le_add_right _ _
  simp only [h1, h2, h3, if_true]

theorem readStrList_encStrList (ss : List String) (rest : List Char) :
    readStrList ss.length (encStrList ss ++ rest) = some (ss, rest) := by
  induction ss with
  | nil => simp [readStrList, encStrList]
  | cons s ss ih =>
    simp only [List.length_cons, readStrList, encStrList, List.append_assoc,
      readStr_encStr, ih]

theorem readOptInt_encOptInt (t : Option Int) (rest : List Char) :
    readOptInt (encOptInt t ++ rest) = some (t, rest) := by
  cases t with
  | none => simp [encOptInt, readOptInt]
  | some z =>
    cases z with
    | ofNat n => simp [encOptInt, readOptInt, readNat_encNat]
    | negSucc n => simp [encOptInt, readOptInt, readNat_encNat]

theorem GetSigningMethod_Alg (m : SigningMethod) : GetSigningMethod m.Alg = some m := by
  cases m with
  | HMAC h => cases h <;> rfl
  | RSA h => cases h <;> rfl
  | RSAPSS h => cases h <;> rfl
  | ECDSA h => cases h <;> rfl
  | Ed25519 => rfl
  | None => rfl

theorem demoParseChars_signing (m : SigningMethod) (c : Claims) (rest : List Char) :
    demoParseChars (demoSigningChars m c ++ rest) =
      .ok ({ Method := m, alg := m.Alg, Claims := c, Valid := false }, rest) := by
  unfold demoParseChars demoSigningChars
  simp only [List.append_assoc, readStr_encStr, readNat_encNat, readStrList_encStrList,
    readOptInt_encOptInt, GetSigningMethod_Alg]

theorem demoParseUnverified_signed (m : SigningMethod) (c : Claims) (seg : String) :
    demoParseUnverified (String.mk (demoSigningChars m c) ++ "." ++ seg) =
      .ok ({ Method := m, alg := m.Alg, Claims := c, Valid := false },
           String.mk (demoSigningChars m c), seg) := by
  have hdata : (String.mk (demoSigningChars m c) ++ "." ++ seg).data =
      demoSigningChars m c ++ '.' :: seg.data := by
    simp [String.data_append]
  unfold demoParseUnverified
  rw [hdata, demoParseChars_signing]
  simp

theorem demoJwt_lawful : demoJwt.Lawful where
  parse_signed := fun m c sig => demoParseUnverified_signed m c (demoEncode sig)
  decode_encode := fun sig => demoDecodeChars_map sig
  verify_sign := by
    intro h s key sig hs
    have : sig = demoMac h key s := (Except.ok.inj hs).symm
    simp [demoJwt, this]
  sign_any := fun h s s' key sig _ => ⟨demoMac h key s', rfl⟩

/-! ## signature.go: the claims -/

/-- C1: `VerifySignature` returns nil exactly when the public key
base58-decodes to 32 octets, the signature decodes as base64 and ed25519
verification of the raw message octets succeeds; in every other case it returns
an error. -/
theorem VerifySignature_nil_iff (P : Crypto) (message signature publicKey : String) :
    (VerifySignature P message signature publicKey = none ↔
      ∃ pk sig, P.base58Decode publicKey = .ok pk ∧ pk.length = 32 ∧
        P.base64Decode signature = .ok sig ∧
        P.ed25519Verify pk (stringBytes message) sig = true) ∧
    ((¬ ∃ pk sig, P.base58Decode publicKey = .ok pk ∧ pk.length = 32 ∧
        P.base64Decode signature = .ok sig ∧
        P.ed25519Verify pk (stringBytes message) sig = true) →
      ∃ err, VerifySignature P message signature publicKey = some err) := by
  have key : VerifySignature P message signature publicKey = none ↔
      ∃ pk sig, P.base58Decode publicKey = .ok pk ∧ pk.length = 32 ∧
        P.base64Decode signature = .ok sig ∧
        P.ed25519Verify pk (stringBytes message) sig = true := by
    unfold VerifySignature
    cases hpk : P.base58Decode publicKey with
    | error e => simp
    | ok pk =>
      by_cases hlen : pk.length = 32
      · cases hsig : P.base64Decode signature with
        | error e => simp [ed25519PublicKeySize, hlen]
        | ok sig =>
          cases hv : P.ed25519Verify pk (stringBytes message) sig <;>
            simp [ed25519PublicKeySize, hlen, hv]
      · simp [ed25519PublicKeySize, hlen]
  refine ⟨key, fun hno => ?_⟩
  cases hres : VerifySignature P message signature publicKey with
  | none => exact absurd (key.mp hres) hno
  | some err => exact ⟨err, rfl⟩

/-- C2: when the public key base58-decodes to a length other than 32,
`VerifySignature` returns the public-key-size error with the expected size 32
and the actual length, whatever the message and the signature string are. -/
theorem VerifySignature_publicKeySize (P : Crypto) (message signature publicKey : String)
    (pk : Bytes) (hdec : P.base58Decode publicKey = .ok pk) (hlen : pk.length ≠ 32) :
    VerifySignature P message signature publicKey =
      some (.publicKeySize 32 pk.length) := by
  simp [VerifySignature, hdec, ed25519PublicKeySize, hlen]

/-- C2 at a concrete input: a two-octet key and a signature string that is not
decodable. -/
theorem VerifySignature_publicKeySize_witness :
    VerifySignature demoCrypto "m" "\u1234" "ab" = some (.publicKeySize 32 2) :=
  VerifySignature_publicKeySize demoCrypto "m" "\u1234" "ab"
    [⟨97, by decide⟩, ⟨98, by decide⟩] rfl (by decide)

/-- C3: for a genuine key pair, the signature of a message, base64-encoded,
verifies against the base58-encoded public key. -/
theorem VerifySignature_round_trip (P : Crypto) (hP : P.Lawful) (message : String)
    (sk pk : Bytes) (hkp : P.GenuineKeyPair sk pk) :
    VerifySignature P message
      (P.base64Encode (P.ed25519Sign sk (stringBytes message)))
      (P.base58Encode pk) = none := by
  obtain ⟨seed, hseed, hgen⟩ := hkp
  have hsize := hP.public_size seed hseed
  have hver := hP.verify_sign seed (stringBytes message) hseed
  rw [hgen] at hsize hver
  simp only at hsize hver
  simp [VerifySignature, hP.base58_decode_encode, hP.base64_decode_encode, hsize, hver]

/-- C3 at a concrete input: the key pair of `demoSeed` and the message of the
repository's test. -/
theorem VerifySignature_round_trip_witness :
    demoCrypto.GenuineKeyPair (demoSeed ++ demoSeed) demoSeed ∧
    VerifySignature demoCrypto "test message"
      (demoCrypto.base64Encode
        (demoCrypto.ed25519Sign (demoSeed ++ demoSeed) (stringBytes "test message")))
      (demoCrypto.base58Encode demoSeed) = none :=
  ⟨⟨demoSeed, by decide, rfl⟩,
   VerifySignature_round_trip demoCrypto demoCrypto_lawful "test message"
     (demoSeed ++ demoSeed) demoSeed ⟨demoSeed, by decide, rfl⟩⟩

/-! ## jwt.go: lemmas -/

theorem token_string_ne_empty (a b : String) : a ++ "." ++ b ≠ "" := by
  intro h
  have hl := congrArg String.length h
  simp [String.length_append] at hl
  exact absurd hl.1.2 (by decide)

theorem SignedString_ok (L : JwtLib) (m : SigningMethod) (c : Claims) (key : Bytes)
    (s : String) (h : L.SignedString m c key = .ok s) :
    ∃ sig, L.Sign m (L.SigningString m c) key = .ok sig ∧
      s = L.SigningString m c ++ "." ++ L.EncodeSegment sig := by
  unfold JwtLib.SignedString at h
  cases hs : L.Sign m (L.SigningString m c) key with
  | error e => simp [hs] at h
  | ok sig =>
    simp only [hs] at h
    exact ⟨sig, rfl, (Except.ok.inj h).symm⟩

theorem IssueTokens_ok (L : JwtLib) (j : JWT) (env : IssueEnv) (w : String)
    (p : TokenResponse) (h : j.IssueTokens L env w = .ok p) :
    L.SignedString SigningMethodHS256 (accessClaims env w) j.signingKey = .ok p.Access ∧
    L.SignedString SigningMethodHS256 (refreshClaims env w) j.signingKey = .ok p.Refresh ∧
    p.ExpiresIn = 3600 := by
  unfold JWT.IssueTokens at h
  cases ha : L.SignedString SigningMethodHS256 (accessClaims env w) j.signingKey with
  | error e => simp [ha] at h
  | ok a =>
    cases hr : L.SignedString SigningMethodHS256 (refreshClaims env w) j.signingKey with
    | error e => simp [ha, hr] at h
    | ok r =>
      simp only [ha, hr] at h
      have hp := Except.ok.inj h
      subst hp
      exact ⟨rfl, rfl, rfl⟩

/-- What `VerifyToken` does on a token string that parses: the key function,
the signature, then the expiry. -/
theorem VerifyToken_of_parse (L : JwtLib) (j : JWT) (now : Int) (s : String)
    (tok : Token) (ss seg : String) (h : HashAlg) (sig : Bytes)
    (hparse : L.ParseUnverified s = .ok (tok, ss, seg))
    (hm : tok.Method = .HMAC h)
    (hseg : L.DecodeSegment seg = some sig)
    (hver : L.Verify (.HMAC h) ss sig j.signingKey = true) :
    j.VerifyToken L now s =
      match validateClaims now tok.Claims with
      | some err => .error (.parseToken err)
      | none => .ok tok.Claims := by
  unfold JWT.VerifyToken JwtLib.ParseWithClaims
  simp only [hparse, JWT.keyFunc, hm, hseg, hver]
  cases validateClaims now tok.Claims <;> simp

/-- A token signed with the manager's key under an HMAC method verifies to its
claims, unless its expiry has passed. -/
theorem VerifyToken_signed (L : JwtLib) (hL : L.Lawful) (j : JWT) (now : Int)
    (h : HashAlg) (c : Claims) (s : String)
    (hs : L.SignedString (.HMAC h) c j.signingKey = .ok s) :
    j.VerifyToken L now s =
      match validateClaims now c with
      | some err => .error (.parseToken err)
      | none => .ok c := by
  obtain ⟨sig, hsig, rfl⟩ := SignedString_ok L _ c _ s hs
  exact VerifyToken_of_parse L j now _ _ _ _ h sig (hL.parse_signed _ c sig) rfl
    (hL.decode_encode sig) (hL.verify_sign h _ _ sig hsig)

theorem SignedString_ne_empty (L : JwtLib) (m : SigningMethod) (c : Claims) (key : Bytes)
    (s : String) (h : L.SignedString m c key = .ok s) : s ≠ "" := by
  obtain ⟨sig, -, rfl⟩ := SignedString_ok L m c key s h
  exact token_string_ne_empty _ _

theorem SignedString_any (L : JwtLib) (hL : L.Lawful) (h : HashAlg) (c c' : Claims)
    (key : Bytes) (s : String) (hs : L.SignedString (.HMAC h) c key = .ok s) :
    ∃ s', L.SignedString (.HMAC h) c' key = .ok s' := by
  obtain ⟨sig, hsig, -⟩ := SignedString_ok L _ c key s hs
  obtain ⟨sig', hsig'⟩ := hL.sign_any h _ (L.SigningString (.HMAC h) c') key sig hsig
  refine ⟨L.SigningString (.HMAC h) c' ++ "." ++ L.EncodeSegment sig', ?_⟩
  simp [JwtLib.SignedString, hsig']

theorem IssueTokens_any (L : JwtLib) (hL : L.Lawful) (j : JWT) (env env' : IssueEnv)
    (w w' : String) (p : TokenResponse) (h : j.IssueTokens L env w = .ok p) :
    ∃ p', j.IssueTokens L env' w' = .ok p' ∧ p'.ExpiresIn = 3600 := by
  obtain ⟨ha, hr, -⟩ := IssueTokens_ok L j env w p h
  obtain ⟨a', ha'⟩ := SignedString_any L hL .SHA256 _ (accessClaims env' w') _ _ ha
  obtain ⟨r', hr'⟩ := SignedString_any L hL .SHA256 _ (refreshClaims env' w') _ _ hr
  refine ⟨⟨a', r', 3600⟩, ?_, rfl⟩
  unfold JWT.IssueTokens
  simp [SigningMethodHS256, ha', hr']

/-- What `RefreshToken` does on a token signed with the manager's key under an
HMAC method: the expiry, the audience lookup, the audience test, the new pair. -/
theorem RefreshToken_signed (L : JwtLib) (hL : L.Lawful) (j : JWT) (now : Int)
    (env : IssueEnv) (h : HashAlg) (c : Claims) (s : String)
    (hs : L.SignedString (.HMAC h) c j.signingKey = .ok s) :
    j.RefreshToken L now env s =
      match validateClaims now c with
      | some err => .returned (.error (.verifyToken (.parseToken err)))
      | none =>
        match c.Audience[0]? with
        | none => .panicked "index out of range [0] with length 0"
        | some aud =>
          if aud ≠ "refresh" then
            .returned (.error .notRefreshToken)
          else
            .returned (j.IssueTokens L env c.Wallet) := by
  have hne := SignedString_ne_empty L _ _ _ _ hs
  unfold JWT.RefreshToken
  rw [VerifyToken_signed L hL _ now h _ _ hs, if_neg hne]
  cases validateClaims now c <;> rfl

/-! ## jwt.go: the claims -/

/-- C4: when `IssueTokens w` on `NewJWT k` succeeds, `VerifyToken` on the same
manager, before the expiry of the token, succeeds on the access token with
claims whose wallet is `w` and whose audience is "access", and on the refresh
token with claims whose wallet is `w` and whose audience is "refresh". -/
theorem IssueTokens_then_VerifyToken (L : JwtLib) (hL : L.Lawful) (k : Bytes)
    (env : IssueEnv) (w : String) (p : TokenResponse) (now : Int)
    (hissue : (NewJWT k).IssueTokens L env w = .ok p) :
    (now < env.nowAccessExp + 3600 →
      ∃ c, (NewJWT k).VerifyToken L now p.Access = .ok c ∧
        c.Wallet = w ∧ c.Audience = ["access"]) ∧
    (now < env.nowRefreshExp + 604800 →
      ∃ c, (NewJWT k).VerifyToken L now p.Refresh = .ok c ∧
        c.Wallet = w ∧ c.Audience = ["refresh"]) := by
  obtain ⟨ha, hr, -⟩ := IssueTokens_ok L _ env w p hissue
  constructor
  · intro hnow
    refine ⟨accessClaims env w, ?_, rfl, rfl⟩
    rw [VerifyToken_signed L hL _ now .SHA256 _ _ ha]
    simp [validateClaims, accessClaims, hnow]
  · intro hnow
    refine ⟨refreshClaims env w, ?_, rfl, rfl⟩
    rw [VerifyToken_signed L hL _ now .SHA256 _ _ hr]
    simp [validateClaims, refreshClaims, hnow]

/-- C4 at a concrete input: the pair issued for "w" at time 1000, verified at
time 1500. -/
theorem IssueTokens_then_VerifyToken_witness :
    (NewJWT demoKey).IssueTokens demoJwt demoEnv "w" = .ok demoTokens ∧
    (∃ c, (NewJWT demoKey).VerifyToken demoJwt 1500 demoTokens.Access = .ok c ∧
      c.Wallet = "w" ∧ c.Audience = ["access"]) ∧
    (∃ c, (NewJWT demoKey).VerifyToken demoJwt 1500 demoTokens.Refresh = .ok c ∧
      c.Wallet = "w" ∧ c.Audience = ["refresh"]) :=
  ⟨rfl,
   (IssueTokens_then_VerifyToken demoJwt demoJwt_lawful demoKey demoEnv "w" demoTokens
      1500 rfl).1 (by decide),
   (IssueTokens_then_VerifyToken demoJwt demoJwt_lawful demoKey demoEnv "w" demoTokens
      1500 rfl).2 (by decide)⟩

/-- C5 fails as stated: the access token issued at time 1000 expires at 4600,
and at time 4600 `RefreshToken` rejects it with the verification error for an
expired token, not with the wrong-audience error. -/
theorem RefreshToken_access_expired_counterexample :
    (NewJWT demoKey).IssueTokens demoJwt demoEnv "w" = .ok demoTokens ∧
    (NewJWT demoKey).RefreshToken demoJwt 4600 demoEnvLater demoTokens.Access =
      .returned (.error (.verifyToken (.parseToken .tokenExpired))) ∧
    (NewJWT demoKey).RefreshToken demoJwt 4600 demoEnvLater demoTokens.Access ≠
      .returned (.error .notRefreshToken) := by
  have h : (NewJWT demoKey).RefreshToken demoJwt 4600 demoEnvLater demoTokens.Access =
      .returned (.error (.verifyToken (.parseToken .tokenExpired))) :=
    (RefreshToken_signed demoJwt demoJwt_lawful (NewJWT demoKey) 4600 demoEnvLater
      .SHA256 (accessClaims demoEnv "w") demoTokens.Access rfl).trans rfl
  refine ⟨rfl, h, ?_⟩
  rw [h]
  simp

/-- C5, as amended: `RefreshToken` never issues a pair for the access token of
`IssueTokens w`: while the access token has not expired the call returns the
wrong-audience error, and from its expiry on it returns the verification error
for an expired token. -/
theorem RefreshToken_access_rejected (L : JwtLib) (hL : L.Lawful) (j : JWT)
    (env env' : IssueEnv) (w : String) (p : TokenResponse) (now : Int)
    (hissue : j.IssueTokens L env w = .ok p) :
    j.RefreshToken L now env' p.Access =
      if now < env.nowAccessExp + 3600 then
        .returned (.error .notRefreshToken)
      else
        .returned (.error (.verifyToken (.parseToken .tokenExpired))) := by
  obtain ⟨ha, -, -⟩ := IssueTokens_ok L _ env w p hissue
  rw [RefreshToken_signed L hL j now env' .SHA256 _ _ ha]
  by_cases hnow : now < env.nowAccessExp + 3600
  · simp [validateClaims, accessClaims, hnow]
  · simp [validateClaims, accessClaims, hnow]

/-- C5, as amended, at a concrete input: the access token issued at time 1000,
presented at time 1500. -/
theorem RefreshToken_access_rejected_witness :
    (NewJWT demoKey).IssueTokens demoJwt demoEnv "w" = .ok demoTokens ∧
    (NewJWT demoKey).RefreshToken demoJwt 1500 demoEnvLater demoTokens.Access =
      .returned (.error .notRefreshToken) :=
  ⟨rfl,
   (RefreshToken_access_rejected demoJwt demoJwt_lawful (NewJWT demoKey) demoEnv
      demoEnvLater "w" demoTokens 1500 rfl).trans (if_pos (by decide))⟩

/-- C6: `RefreshToken` on the unexpired refresh token of `IssueTokens w`, with
the same signing key, is exactly `IssueTokens w`, and that call succeeds with a
pair whose `ExpiresIn` is 3600. -/
theorem RefreshToken_refresh_reissues (L : JwtLib) (hL : L.Lawful) (j : JWT)
    (env env' : IssueEnv) (w : String) (p : TokenResponse) (now : Int)
    (hissue : j.IssueTokens L env w = .ok p)
    (hnow : now < env.nowRefreshExp + 604800) :
    j.RefreshToken L now env' p.Refresh = .returned (j.IssueTokens L env' w) ∧
    ∃ p', j.IssueTokens L env' w = .ok p' ∧ p'.ExpiresIn = 3600 := by
  obtain ⟨-, hr, -⟩ := IssueTokens_ok L _ env w p hissue
  refine ⟨?_, IssueTokens_any L hL j env env' w w p hissue⟩
  rw [RefreshToken_signed L hL j now env' .SHA256 _ _ hr]
  simp [validateClaims, refreshClaims, hnow]

/-- C6 at a concrete input: the refresh token issued at time 1000, presented
at time 1500. -/
theorem RefreshToken_refresh_reissues_witness :
    (NewJWT demoKey).IssueTokens demoJwt demoEnv "w" = .ok demoTokens ∧
    (NewJWT demoKey).RefreshToken demoJwt 1500 demoEnvLater demoTokens.Refresh =
      .returned ((NewJWT demoKey).IssueTokens demoJwt demoEnvLater "w") ∧
    ∃ p', (NewJWT demoKey).IssueTokens demoJwt demoEnvLater "w" = .ok p' ∧
      p'.ExpiresIn = 3600 :=
  ⟨rfl,
   RefreshToken_refresh_reissues demoJwt demoJwt_lawful (NewJWT demoKey) demoEnv
     demoEnvLater "w" demoTokens 1500 rfl (by decide)⟩

/-- C7 fails as stated: a token string whose expiry, 5, is in the past at time
10 and whose signature does not match the shared secret fails `VerifyToken` with
the invalid-signature error, not with the token-expired error. -/
theorem VerifyToken_expired_bad_signature_counterexample :
    demoJwt.ParseUnverified "111110HS25610w110id101111110accessP0P111110.\x00" =
      .ok ({ Method := .HMAC .SHA256, alg := "HS256", Claims := demoClaims,
             Valid := false },
           "111110HS25610w110id101111110accessP0P111110", "\x00") ∧
    demoClaims.ExpiresAt = some 5 ∧
    (NewJWT demoKey).VerifyToken demoJwt 10
        "111110HS25610w110id101111110accessP0P111110.\x00" =
      .error (.parseToken .signatureInvalid) :=
  ⟨rfl, rfl, rfl⟩

/-- C7, as amended: a token string whose signature verifies under the shared
secret and whose expiry is not in the future fails `VerifyToken` with the
token-expired error. -/
theorem VerifyToken_expired (L : JwtLib) (j : JWT) (now : Int) (s : String)
    (tok : Token) (ss seg : String) (h : HashAlg) (sig : Bytes) (exp : Int)
    (hparse : L.ParseUnverified s = .ok (tok, ss, seg))
    (hm : tok.Method = .HMAC h)
    (hseg : L.DecodeSegment seg = some sig)
    (hver : L.Verify (.HMAC h) ss sig j.signingKey = true)
    (hexp : tok.Claims.ExpiresAt = some exp) (hpast : exp ≤ now) :
    j.VerifyToken L now s = .error (.parseToken .tokenExpired) := by
  rw [VerifyToken_of_parse L j now s tok ss seg h sig hparse hm hseg hver]
  have : ¬ now < exp := by omega
  simp [validateClaims, hexp, this]

/-- C7, as amended, at a concrete input: the same claims signed with the
shared secret, at time 10. -/
theorem VerifyToken_expired_witness :
    (NewJWT demoKey).VerifyToken demoJwt 10
        "111110HS25610w110id101111110accessP0P111110.\x01\x7f" =
      .error (.parseToken .tokenExpired) :=
  VerifyToken_expired demoJwt (NewJWT demoKey) 10
    "111110HS25610w110id101111110accessP0P111110.\x01\x7f"
    { Method := .HMAC .SHA256, alg := "HS256", Claims := demoClaims, Valid := false }
    "111110HS25610w110id101111110accessP0P111110" "\x01\x7f" .SHA256 [1, 127] 5
    rfl rfl rfl rfl rfl (by decide)

/-- C8 fails as stated: a token string that declares HS512, not the HS256 of
issuance, and is signed with the shared secret passes `VerifyToken`, which
returns its claims. -/
theorem VerifyToken_HS512_counterexample :
    demoJwt.ParseUnverified "111110HS51210w110id101111110accessP0P111110.\x03B" =
      .ok ({ Method := .HMAC .SHA512, alg := "HS512", Claims := demoClaims,
             Valid := false },
           "111110HS51210w110id101111110accessP0P111110", "\x03B") ∧
    (NewJWT demoKey).VerifyToken demoJwt 1
        "111110HS51210w110id101111110accessP0P111110.\x03B" =
      .ok demoClaims :=
  ⟨rfl, rfl⟩

/-- C8, as amended: a token string that parses and declares a registered
signing method outside the HMAC family fails `VerifyToken` with the
unexpected-signing-method error, and no claims are returned. -/
theorem VerifyToken_unexpected_method (L : JwtLib) (j : JWT) (now : Int) (s : String)
    (tok : Token) (ss seg : String)
    (hparse : L.ParseUnverified s = .ok (tok, ss, seg))
    (hm : ∀ h, tok.Method ≠ .HMAC h) :
    j.VerifyToken L now s =
      .error (.parseToken (.keyfunc (.unexpectedSigningMethod tok.alg))) := by
  have hkey : j.keyFunc tok = .error (.unexpectedSigningMethod tok.alg) := by
    unfold JWT.keyFunc
    cases hmeth : tok.Method with
    | HMAC h => exact absurd hmeth (hm h)
    | _ => rfl
  unfold JWT.VerifyToken JwtLib.ParseWithClaims
  simp only [hparse, hkey]

/-- C8, as amended, at a concrete input: a token string that declares the
method "none" and carries an empty signature. -/
theorem VerifyToken_unexpected_method_witness :
    (NewJWT demoKey).VerifyToken demoJwt 1
        "11110none10w110id101111110accessP0P111110." =
      .error (.parseToken (.keyfunc (.unexpectedSigningMethod "none"))) :=
  VerifyToken_unexpected_method demoJwt (NewJWT demoKey) 1
    "11110none10w110id101111110accessP0P111110."
    { Method := .None, alg := "none", Claims := demoClaims, Valid := false }
    "11110none10w110id101111110accessP0P111110" "" rfl (fun _ => by simp)

/-- C9, the divergence: on a token validly signed with the shared secret whose
claims carry no audience and which has not expired, `RefreshToken` panics on
the audience lookup. -/
theorem RefreshToken_panics_without_audience (L : JwtLib) (hL : L.Lawful) (j : JWT)
    (env : IssueEnv) (now : Int) (h : HashAlg) (c : Claims) (s : String)
    (hs : L.SignedString (.HMAC h) c j.signingKey = .ok s)
    (haud : c.Audience = []) (hvalid : validateClaims now c = none) :
    j.RefreshToken L now env s = .panicked "index out of range [0] with length 0" := by
  rw [RefreshToken_signed L hL j now env h c s hs, hvalid, haud]
  rfl

/-- C9 at a concrete input: the token of the wallet "w" with no other claim,
signed with the shared secret. -/
theorem RefreshToken_panics_without_audience_witness :
    demoJwt.SignedString (.HMAC .SHA256) demoBareClaims demoKey =
      .ok "111110HS25610w00NN.\x01&" ∧
    (NewJWT demoKey).RefreshToken demoJwt 1500 demoEnvLater "111110HS25610w00NN.\x01&" =
      .panicked "index out of range [0] with length 0" :=
  ⟨rfl,
   RefreshToken_panics_without_audience demoJwt demoJwt_lawful (NewJWT demoKey)
     demoEnvLater 1500 .SHA256 demoBareClaims "111110HS25610w00NN.\x01&" rfl rfl rfl⟩

/-- C10: a successful `IssueTokens w` whose clock readings are `t` returns an
access token whose expiry claim is `t + 3600` and a refresh token whose expiry
claim is `t + 604800`, and `ExpiresIn = 3600`. -/
theorem IssueTokens_expiries (L : JwtLib) (hL : L.Lawful) (j : JWT) (env : IssueEnv)
    (w : String) (p : TokenResponse) (t : Int)
    (hissue : j.IssueTokens L env w = .ok p)
    (ha : env.nowAccessExp = t) (hr : env.nowRefreshExp = t) :
    (∃ tok ss seg, L.ParseUnverified p.Access = .ok (tok, ss, seg) ∧
      tok.Claims.ExpiresAt = some (t + 3600)) ∧
    (∃ tok ss seg, L.ParseUnverified p.Refresh = .ok (tok, ss, seg) ∧
      tok.Claims.ExpiresAt = some (t + 604800)) ∧
    p.ExpiresIn = 3600 := by
  obtain ⟨hsa, hsr, hexp⟩ := IssueTokens_ok L j env w p hissue
  obtain ⟨siga, -, hpa⟩ := SignedString_ok L _ _ _ _ hsa
  obtain ⟨sigr, -, hpr⟩ := SignedString_ok L _ _ _ _ hsr
  refine ⟨⟨_, _, _, hpa ▸ hL.parse_signed _ (accessClaims env w) siga, ?_⟩,
    ⟨_, _, _, hpr ▸ hL.parse_signed _ (refreshClaims env w) sigr, ?_⟩, hexp⟩
  · simp [accessClaims, ha]
  · simp [refreshClaims, hr]

/-- C10 at a concrete input: the pair issued for "w" when every clock reading
is 1000. -/
theorem IssueTokens_expiries_witness :
    (NewJWT demoKey).IssueTokens demoJwt demoEnv "w" = .ok demoTokens ∧
    (∃ tok ss seg, demoJwt.ParseUnverified demoTokens.Access = .ok (tok, ss, seg) ∧
      tok.Claims.ExpiresAt = some (1000 + 3600)) ∧
    (∃ tok ss seg, demoJwt.ParseUnverified demoTokens.Refresh = .ok (tok, ss, seg) ∧
      tok.Claims.ExpiresAt = some (1000 + 604800)) ∧
    demoTokens.ExpiresIn = 3600 :=
  ⟨rfl,
   IssueTokens_expiries demoJwt demoJwt_lawful (NewJWT demoKey) demoEnv "w" demoTokens
     1000 rfl rfl rfl⟩

/-! ## middleware.go and http_handlers.go: lemmas -/

theorem WithValue_claims (r : Request) (claims : Option Claims) :
    GetClaimsFromRequest
      (r.WithContext (r.Context.WithValue .TokenClaimsContextKey (.claims claims))) =
      claims := by
  simp [GetClaimsFromRequest, Request.Context, Request.WithContext, Context.WithValue,
    Context.Value, List.lookup]

theorem Middleware_forwards {ε σ : Type} (v : verifier ε) (next : Handler σ)
    (w : ResponseRecorder) (r : Request) (s : σ) (claims : Option Claims)
    (hne : r.Header.Get "Authorization" ≠ "")
    (hok : v.VerifyToken (r.Header.Get "Authorization") = .ok claims) :
    Middleware v next w r s =
      next w (r.WithContext (r.Context.WithValue .TokenClaimsContextKey (.claims claims))) s := by
  simp [Middleware, hne, hok]

theorem Middleware_rejects {ε σ : Type} (v : verifier ε) (next : Handler σ)
    (w : ResponseRecorder) (r : Request) (s : σ)
    (h : r.Header.Get "Authorization" = "" ∨
      ∃ err, v.VerifyToken (r.Header.Get "Authorization") = .error err) :
    Middleware v next w r s = (httpError w "Unauthorized" StatusUnauthorized, s) := by
  by_cases hempty : r.Header.Get "Authorization" = ""
  · simp [Middleware, hempty]
  · rcases h with h | ⟨err, herr⟩
    · exact absurd h hempty
    · simp [Middleware, hempty, herr]

theorem httpError_Code (w : ResponseRecorder) (msg : String) (code : Nat)
    (hfresh : w.wroteHeader = false) : (httpError w msg code).Code = code := by
  simp [httpError, ResponseRecorder.Write, ResponseRecorder.WriteHeader, hfresh]

theorem defaultResponse_Code (J : JsonLib) (w : ResponseRecorder) (status : Nat)
    (data : ResponseData) (hfresh : w.wroteHeader = false) :
    (defaultResponse J w status data).Code = status := by
  simp [defaultResponse, ResponseRecorder.Write, ResponseRecorder.WriteHeader, hfresh]

/-- The status codes of the handler `VerifySignedMessage` on a fresh response
writer: 400 for a body that does not decode, a payload that does not validate
and a signature that does not verify, 500 for a failure of `IssueTokens`, 200
otherwise. -/
theorem VerifySignedMessage_Code {ε : Type} (J : JsonLib) (P : Crypto) (jwt : issuer ε)
    (w : ResponseRecorder) (r : Request) (hfresh : w.wroteHeader = false) :
    (VerifySignedMessage J P jwt w r).Code =
      match J.decodeVerifySignedMessagePayload r.Body with
      | .error _ => 400
      | .ok payload =>
        match payload.Validate with
        | some _ => 400
        | none =>
          match VerifySignature P payload.Message payload.Signature payload.PublicKey with
          | some _ => 400
          | none =>
            match jwt.IssueTokens payload.PublicKey with
            | .error _ => 500
            | .ok _ => 200 := by
  unfold VerifySignedMessage
  cases h1 : J.decodeVerifySignedMessagePayload r.Body with
  | error e => exact defaultResponse_Code J w _ _ hfresh
  | ok payload =>
    simp only []
    cases h2 : payload.Validate with
    | some e => exact defaultResponse_Code J w _ _ hfresh
    | none =>
      simp only []
      cases h3 : VerifySignature P payload.Message payload.Signature payload.PublicKey with
      | some e => exact defaultResponse_Code J w _ _ hfresh
      | none =>
        simp only []
        cases h4 : jwt.IssueTokens payload.PublicKey with
        | error e => exact defaultResponse_Code J w _ _ hfresh
        | ok t => exact defaultResponse_Code J w _ _ hfresh

/-! ## middleware.go and http_handlers.go: the claims -/

/-- C11: `Middleware` serves the wrapped handler exactly when the Authorization
header is not empty and `VerifyToken` on it returns no error. Then the handler
is served once, with the request whose context holds the claims, and
`GetClaimsFromRequest` on that request returns exactly the claims `VerifyToken`
returned. Otherwise the response is 401 Unauthorized, and the handler is not
served: its state is untouched, whatever handler it is. -/
theorem Middleware_gate {ε σ : Type} (v : verifier ε) (next : Handler σ)
    (w : ResponseRecorder) (r : Request) (s : σ) :
    ((Middleware v recordNext w r []).2 ≠ [] ↔
      (r.Header.Get "Authorization" ≠ "" ∧
        ∃ claims, v.VerifyToken (r.Header.Get "Authorization") = .ok claims)) ∧
    (∀ claims, r.Header.Get "Authorization" ≠ "" →
      v.VerifyToken (r.Header.Get "Authorization") = .ok claims →
      Middleware v next w r s =
        next w (r.WithContext
          (r.Context.WithValue .TokenClaimsContextKey (.claims claims))) s ∧
      (Middleware v recordNext w r []).2 =
        [r.WithContext (r.Context.WithValue .TokenClaimsContextKey (.claims claims))] ∧
      GetClaimsFromRequest
        (r.WithContext (r.Context.WithValue .TokenClaimsContextKey (.claims claims))) =
        claims) ∧
    ((r.Header.Get "Authorization" = "" ∨
        ∃ err, v.VerifyToken (r.Header.Get "Authorization") = .error err) →
      Middleware v next w r s = (httpError w "Unauthorized" StatusUnauthorized, s) ∧
      (Middleware v recordNext w r []).2 = [] ∧
      (w.wroteHeader = false →
        (Middleware v next w r s).1.Code = 401)) := by
  refine ⟨?_, ?_, ?_⟩
  · by_cases hempty : r.Header.Get "Authorization" = ""
    · simp [Middleware_rejects v recordNext w r [] (Or.inl hempty), hempty]
    · cases hv : v.VerifyToken (r.Header.Get "Authorization") with
      | error err =>
        simp [Middleware_rejects v recordNext w r [] (Or.inr ⟨err, hv⟩)]
      | ok claims =>
        simp [Middleware_forwards v recordNext w r [] claims hempty hv, recordNext, hempty]
  · intro claims hne hok
    refine ⟨Middleware_forwards v next w r s claims hne hok, ?_, WithValue_claims r claims⟩
    rw [Middleware_forwards v recordNext w r [] claims hne hok]
    simp [recordNext]
  · intro h
    refine ⟨Middleware_rejects v next w r s h, ?_, ?_⟩
    · rw [Middleware_rejects v recordNext w r [] h]
    · intro hfresh
      rw [Middleware_rejects v next w r s h]
      exact httpError_Code w _ _ hfresh

/-- C11 at concrete inputs: the manager of `demoKey` at time 1 as the verifier,
a request that carries a valid token and a request without the header. -/
theorem Middleware_gate_witness :
    (Middleware ((NewJWT demoKey).verifier demoJwt 1) recordNext NewRecorder
        demoAuthRequest []).2 =
      [demoAuthRequest.WithContext [(.TokenClaimsContextKey, .claims (some demoClaims))]] ∧
    GetClaimsFromRequest
      (demoAuthRequest.WithContext [(.TokenClaimsContextKey, .claims (some demoClaims))]) =
      some demoClaims ∧
    (Middleware ((NewJWT demoKey).verifier demoJwt 1) recordNext NewRecorder
        demoAnonRequest []).2 = [] ∧
    (Middleware ((NewJWT demoKey).verifier demoJwt 1) recordNext NewRecorder
        demoAnonRequest []).1.Code = 401 :=
  ⟨((Middleware_gate ((NewJWT demoKey).verifier demoJwt 1) recordNext NewRecorder
      demoAuthRequest []).2.1 (some demoClaims) (by decide) rfl).2.1,
   ((Middleware_gate ((NewJWT demoKey).verifier demoJwt 1) recordNext NewRecorder
      demoAuthRequest []).2.1 (some demoClaims) (by decide) rfl).2.2,
   ((Middleware_gate ((NewJWT demoKey).verifier demoJwt 1) recordNext NewRecorder
      demoAnonRequest []).2.2 (Or.inl rfl)).2.1,
   ((Middleware_gate ((NewJWT demoKey).verifier demoJwt 1) recordNext NewRecorder
      demoAnonRequest []).2.2 (Or.inl rfl)).2.2 rfl⟩

/-- C12, the divergence: when the refresh token of a request is not empty and
the method `RefreshToken` returns an error for it, whatever the error is, the
handler `RefreshToken` answers on a fresh response writer with the status 500. -/
theorem RefreshToken_handler_error_is_500 {ε : Type} (J : JsonLib) (jwt : refresher ε)
    (w : ResponseRecorder) (r : Request) (payload : RefreshTokenPayload) (err : ε)
    (hdec : J.decodeRefreshTokenPayload r.Body = .ok payload)
    (hne : payload.RefreshToken ≠ "")
    (herr : jwt.RefreshToken payload.RefreshToken = .returned (.error err))
    (hfresh : w.wroteHeader = false) :
    RefreshToken J jwt w r =
      .returned (defaultResponse J w StatusInternalServerError
        (.errorMap StatusInternalServerError (jwt.Error err))) ∧
    (defaultResponse J w StatusInternalServerError
      (.errorMap StatusInternalServerError (jwt.Error err))).Code = 500 := by
  refine ⟨?_, defaultResponse_Code J w _ _ hfresh⟩
  unfold RefreshToken
  simp only [hdec, hne, if_false, herr]

/-- C12 at concrete inputs: the access token `demoAccessToken` presented as a
refresh token before its expiry (wrong audience) and after it (expired), and a
string that is no token, each answered with the status 500. -/
theorem RefreshToken_handler_error_is_500_witness :
    (RefreshToken demoJson (demoRefresher 1) NewRecorder
        (demoRefreshRequest demoAccessToken) =
      .returned (defaultResponse demoJson NewRecorder 500
        (.errorMap 500 "the token is not a refresh token")) ∧
     (defaultResponse demoJson NewRecorder 500
        (.errorMap 500 "the token is not a refresh token")).Code = 500) ∧
    (RefreshToken demoJson (demoRefresher 10) NewRecorder
        (demoRefreshRequest demoAccessToken) =
      .returned (defaultResponse demoJson NewRecorder 500
        (.errorMap 500
          "failed to verify token: failed to parse token: token is expired")) ∧
     (defaultResponse demoJson NewRecorder 500
        (.errorMap 500
          "failed to verify token: failed to parse token: token is expired")).Code = 500) ∧
    (RefreshToken demoJson (demoRefresher 1) NewRecorder (demoRefreshRequest "garbage") =
      .returned (defaultResponse demoJson NewRecorder 500
        (.errorMap 500
          "failed to verify token: failed to parse token: token is malformed")) ∧
     (defaultResponse demoJson NewRecorder 500
        (.errorMap 500
          "failed to verify token: failed to parse token: token is malformed")).Code = 500) :=
  ⟨RefreshToken_handler_error_is_500 demoJson (demoRefresher 1) NewRecorder
     (demoRefreshRequest demoAccessToken) { RefreshToken := demoAccessToken }
     .notRefreshToken rfl (by decide) rfl rfl,
   RefreshToken_handler_error_is_500 demoJson (demoRefresher 10) NewRecorder
     (demoRefreshRequest demoAccessToken) { RefreshToken := demoAccessToken }
     (.verifyToken (.parseToken .tokenExpired)) rfl (by decide) rfl rfl,
   RefreshToken_handler_error_is_500 demoJson (demoRefresher 1) NewRecorder
     (demoRefreshRequest "garbage") { RefreshToken := "garbage" }
     (.verifyToken (.parseToken .malformed)) rfl (by decide) rfl rfl⟩

end Solauth
